import Mathlib

/-!
# Verification of the `mote` DOM-wrapper library

Shallow embedding of the core of the `mote` repository (files `src/El.ts`,
`src/Mote.ts`, `src/All.ts`, `src/errors.ts`) and proofs about the claims of
its specification.

Modelling conventions:
* a JS string is a Lean `String` (a sequence of characters); the JS string
  operations `split`, `includes` used by the source are embedded as explicit
  recursions over `String.toList`;
* a DOM element is the record `Elem` (tag name, id, attribute list, value
  property, class list); the live document is a `List Elem` in document order
  (for claims that need the parent relation, a `TreeDoc` with parent indices);
* JS dynamic values reaching a constructor are embedded by small inductive
  types enumerating the shapes the source distinguishes (`typeof` /
  `instanceof` branches);
* fallible operations return `Except MoteErr _`; `MoteErr` covers both the
  library's own error taxonomy (`errors.ts`) and the host platform's errors
  (`SyntaxError` from `querySelector` on an invalid selector,
  `InvalidCharacterError` from `createElement` on an invalid tag name) as
  well as plain `new Error(...)` throws;
* JS numbers are embedded as `Int` (all claims use integral inputs; no claim
  depends on float behaviour).
-/

/-- Splitting a character list at every occurrence of `c`
(embeds JS `String.prototype.split` with a one-character separator). -/
def splitOnChar (c : Char) : List Char → List (List Char)
  | [] => [[]]
  | x :: xs =>
    if x = c then [] :: splitOnChar c xs
    else
      match splitOnChar c xs with
      | [] => [[x]]
      | h :: t => (x :: h) :: t

/-- JS `s.split(c)` for a one-character separator, on Lean strings. -/
def jsSplit (s : String) (c : Char) : List String :=
  (splitOnChar c s.toList).map (fun l => ⟨l⟩)

/-- JS `s.includes(c)` for a one-character needle. -/
def jsIncludesChar (s : String) (c : Char) : Bool :=
  s.toList.contains c

/-- Characters allowed inside selector names and tag names in the model
(letters, digits, `-`, `_`). -/
def isNameChar (c : Char) : Bool :=
  c.isAlphanum || c = '-' || c = '_'

/-- A DOM element: tag kind, identifier, attribute list (name/value pairs in
insertion order), the `value` property of form controls, and the class list. -/
structure Elem where
  tag : String
  id : String
  attrs : List (String × String)
  value : String
  classes : List String
  deriving Repr, DecidableEq

/-- Errors: the library's taxonomy from `errors.ts` plus the host platform's
exceptions and plain `new Error(...)` throws. -/
inductive MoteErr where
  /-- `ElementNotFoundError` (errors.ts): selector lookup found nothing;
  carries the selector text. -/
  | elementNotFound (selector : String)
  /-- `InvalidSelectorError` (errors.ts): constructor input is not a string,
  element or function; carries the stringified received value. -/
  | invalidSelector (received : String)
  /-- `InvalidElementTypeError` (errors.ts): operation on the wrong element
  kind; carries method, expected kind, actual kind, element id. -/
  | invalidElementType (method expected actual elementId : String)
  /-- `NoParentNodeError` (errors.ts): operation requiring a parent on a node
  without one; carries operation and element id. -/
  | noParentNode (operation elementId : String)
  /-- `InvalidReturnValueError` (errors.ts): factory function returned a
  falsy value; carries the expected-shape description. -/
  | invalidReturnValue (expected : String)
  /-- The platform's `SyntaxError` thrown by `querySelector` /
  `querySelectorAll` when handed an invalid selector string. -/
  | platformSyntaxError (input : String)
  /-- The platform's `InvalidCharacterError` thrown by `createElement` on an
  invalid tag name. -/
  | platformInvalidCharacter (tagName : String)
  /-- A plain `new Error(message)` throw. -/
  | plainError (message : String)
  deriving Repr, DecidableEq

/-- Validity of a selector string for the selector forms of the model
(identifier form `#name`, class form `.name`, bare tag form `name`).
`querySelector`/`querySelectorAll` throw a platform `SyntaxError` on anything
else (e.g. `"123"`, the coercion of the number `123`). -/
def validSelector (s : String) : Bool :=
  match s.toList with
  | [] => false
  | '#' :: rest => !rest.isEmpty && rest.all isNameChar
  | '.' :: rest => !rest.isEmpty && rest.all isNameChar
  | c :: rest => c.isAlpha && rest.all isNameChar

/-- Whether element `e` matches (valid) selector `s`:
`#x` matches by id, `.c` by class membership, a bare name by tag. -/
def matchesSel (s : String) (e : Elem) : Bool :=
  match s.toList with
  | '#' :: rest => e.id.toList = rest
  | '.' :: rest => e.classes.any (fun c => c.toList = rest)
  | _ => e.tag = s

/-- `document.querySelector(s)` over a document in document order: platform
`SyntaxError` on an invalid selector, otherwise the first matching element
(or `none`). -/
def querySelectorDyn (s : String) (doc : List Elem) : Except MoteErr (Option Elem) :=
  if validSelector s then .ok (doc.find? (matchesSel s)) else .error (.platformSyntaxError s)

/-- `document.querySelectorAll(s)` over a document: platform `SyntaxError` on
an invalid selector, otherwise all matching elements in document order. -/
def querySelectorAllDyn (s : String) (doc : List Elem) : Except MoteErr (List Elem) :=
  if validSelector s then .ok (doc.filter (matchesSel s)) else .error (.platformSyntaxError s)

/-- Validity of a tag name for `document.createElement` in the model: a
letter followed by name characters (in particular no `#`). -/
def validTagName (t : String) : Bool :=
  match t.toList with
  | [] => false
  | c :: rest => c.isAlpha && rest.all isNameChar

/-- `document.createElement(tagName)`: a fresh detached element of the given
kind with empty id, no attributes, empty value, no classes; the platform
throws `InvalidCharacterError` on an invalid tag name. -/
def createElementDyn (tagName : String) : Except MoteErr Elem :=
  if validTagName tagName then
    .ok { tag := tagName, id := "", attrs := [], value := "", classes := [] }
  else
    .error (.platformInvalidCharacter tagName)

/-- Result of `El.prototype.id(idForEl?)`: either the wrapper (set form,
for chaining) or the current id string (get form). -/
inductive IdResult where
  | wrapper (e : Elem)
  | value (s : String)
  deriving Repr, DecidableEq

/-- `El.id` (El.ts): `if (!idForEl) return this.element.id;` — a missing
argument **or any falsy argument (the empty string)** yields the get form;
otherwise the id is assigned and the wrapper returned. -/
def elId (e : Elem) (idForEl : Option String) : IdResult :=
  match idForEl with
  | none => .value e.id
  | some s => if s = "" then .value e.id else .wrapper { e with id := s }

/-- The effect of a `this.id(idForEl)` call on the element itself (used by the
`Mote` constructor): the element is updated only in the set form. -/
def elIdApply (e : Elem) (idForEl : String) : Elem :=
  match elId e (some idForEl) with
  | .wrapper e' => e'
  | .value _ => e

/-- `isIDdElementName` (Mote.ts): the selector contains `#` and splitting on
`#` yields exactly two segments. -/
def isIDdElementName (selector : String) : Bool :=
  jsIncludesChar selector '#' && (jsSplit selector '#').length = 2

/-- A JS value reaching the `Mote` constructor: a string, or anything else
(carried as its diagnostic rendering). -/
inductive MoteInput where
  | str (s : String)
  | nonString (rendering : String)
  deriving Repr, DecidableEq

/-- The `Mote` constructor (Mote.ts). A non-string throws a plain `Error`.
An id'd name `tag#id` creates the element via `super(() => createElement(tag))`
and then calls `this.id(id)`. A bare name just creates the element (the
source's comment says a new id is generated here, but no id is assigned). -/
def moteNew (input : MoteInput) : Except MoteErr Elem :=
  match input with
  | .nonString _ => .error (.plainError "[Mote] ~> |ERROR| Selector must be a string")
  | .str selector =>
    if isIDdElementName selector then
      let id := (jsSplit selector '#').getD 1 ""
      let tagName := (jsSplit selector '#').getD 0 ""
      (createElementDyn tagName).map (fun e => elIdApply e id)
    else
      createElementDyn selector

example : moteNew (.str "div#myDiv") =
    .ok { tag := "div", id := "myDiv", attrs := [], value := "", classes := [] } := by rfl

example : moteNew (.str "div") =
    .ok { tag := "div", id := "", attrs := [], value := "", classes := [] } := by rfl

/-! ## Helper lemmas about the string embedding -/

theorem toList_append_eq (s t : String) : (s ++ t).toList = s.toList ++ t.toList := rfl

theorem mk_toList_eq (s : String) : String.mk s.toList = s := rfl

theorem splitOnChar_of_not_contains {c : Char} {l : List Char}
    (h : l.contains c = false) : splitOnChar c l = [l] := by
  induction l with
  | nil => rfl
  | cons x xs ih =>
    simp only [List.contains_cons, Bool.or_eq_false_iff, beq_eq_false_iff_ne] at h
    rw [splitOnChar, if_neg (fun hx => h.1 hx.symm), ih h.2]

theorem splitOnChar_append {c : Char} {a : List Char}
    (h : a.contains c = false) (b : List Char) :
    splitOnChar c (a ++ c :: b) = a :: splitOnChar c b := by
  induction a with
  | nil =>
    simp only [List.nil_append]
    rw [splitOnChar, if_pos rfl]
  | cons x xs ih =>
    simp only [List.contains_cons, Bool.or_eq_false_iff, beq_eq_false_iff_ne] at h
    simp only [List.cons_append]
    rw [splitOnChar, if_neg (fun hx => h.1 hx.symm), ih h.2]

/-- A list of name characters never contains `#`. -/
theorem not_contains_hash_of_all_nameChar {l : List Char}
    (h : l.all isNameChar = true) : l.contains '#' = false := by
  induction l with
  | nil => rfl
  | cons x xs ih =>
    simp only [List.all_cons, Bool.and_eq_true] at h
    rw [List.contains_cons]
    have hx : ('#' == x) = false := by
      by_contra hc
      rw [Bool.not_eq_false, beq_iff_eq] at hc
      rw [← hc] at h
      exact absurd h.1 (by decide)
    rw [hx, ih h.2]
    rfl

theorem not_contains_hash_of_validTagName {t : String}
    (h : validTagName t = true) : jsIncludesChar t '#' = false := by
  unfold validTagName at h
  unfold jsIncludesChar
  cases ht : t.toList with
  | nil => rfl
  | cons c rest =>
    rw [ht] at h
    simp only [Bool.and_eq_true] at h
    rw [List.contains_cons, not_contains_hash_of_all_nameChar h.2]
    have hc : ('#' == c) = false := by
      by_contra hcc
      rw [Bool.not_eq_false, beq_iff_eq] at hcc
      rw [← hcc] at h
      exact absurd h.1 (by decide)
    rw [hc]
    rfl

/-! ## Claims C1 and C9: the `Mote` constructor -/

/-- Splitting `T ++ "#" ++ id` at `#` recovers the two segments when neither
side contains `#`. -/
theorem jsSplit_tag_hash_id {T idStr : String}
    (hT : jsIncludesChar T '#' = false) (hid : jsIncludesChar idStr '#' = false) :
    jsSplit (T ++ "#" ++ idStr) '#' = [T, idStr] := by
  unfold jsSplit
  have : (T ++ "#" ++ idStr).toList = T.toList ++ '#' :: idStr.toList := by
    rw [toList_append_eq, toList_append_eq, List.append_assoc]
    rfl
  rw [this, splitOnChar_append hT, splitOnChar_of_not_contains hid]
  simp only [List.map_cons, List.map_nil, mk_toList_eq]

/-- C1, code divergence: for every valid tag name `T`, the `Mote` constructor on
the bare-tag input `T` yields an element of kind `T` whose identifier is the
**empty** string — no identifier is generated, although the source's own
comment announces "generate a new ID and use it" and the spec requires a
non-empty fresh identifier. -/
theorem mote_bare_tag_empty_id (T : String) (hT : validTagName T = true) :
    moteNew (.str T) = .ok { tag := T, id := "", attrs := [], value := "", classes := [] } := by
  have hno : jsIncludesChar T '#' = false := not_contains_hash_of_validTagName hT
  have hidd : isIDdElementName T = false := by
    unfold isIDdElementName
    rw [hno]
    rfl
  simp only [moteNew]
  rw [if_neg (by simp [hidd])]
  unfold createElementDyn
  rw [if_pos hT]

/-- C1 witness: `new Mote('div')` produces a `div` whose id is `""`. -/
theorem mote_bare_tag_empty_id_witness :
    moteNew (.str "div") = .ok { tag := "div", id := "", attrs := [], value := "", classes := [] } :=
  mote_bare_tag_empty_id "div" (by rfl)

/-- C9: for every valid tag name `T` and identifier `id` without `#`, the
`Mote` constructor on `"T#id"` yields a freshly created element of kind `T`
whose identifier is exactly `id`. -/
theorem mote_idd_tag_and_id (T idStr : String) (hT : validTagName T = true)
    (hid : jsIncludesChar idStr '#' = false) :
    moteNew (.str (T ++ "#" ++ idStr)) =
      .ok { tag := T, id := idStr, attrs := [], value := "", classes := [] } := by
  have hTno : jsIncludesChar T '#' = false := not_contains_hash_of_validTagName hT
  have hsplit : jsSplit (T ++ "#" ++ idStr) '#' = [T, idStr] := jsSplit_tag_hash_id hTno hid
  have hincl : jsIncludesChar (T ++ "#" ++ idStr) '#' = true := by
    unfold jsIncludesChar
    rw [show (T ++ "#" ++ idStr).toList = T.toList ++ '#' :: idStr.toList by
      rw [toList_append_eq, toList_append_eq, List.append_assoc]; rfl]
    simp [List.contains_eq_any_beq]
  have hidd : isIDdElementName (T ++ "#" ++ idStr) = true := by
    unfold isIDdElementName
    rw [hincl, hsplit]
    rfl
  simp only [moteNew]
  rw [if_pos hidd]
  simp only [hsplit]
  unfold createElementDyn
  simp only [List.getD_cons_zero, List.getD_cons_succ]
  rw [if_pos hT]
  unfold elIdApply elId
  by_cases h0 : idStr = ""
  · subst h0
    rfl
  · simp only [Except.map_ok, List.getD_cons_succ, List.getD_cons_zero, if_neg h0]
    rfl

/-- C9 witness: `new Mote('div#panel')` yields a `div` with id `panel`. -/
theorem mote_idd_tag_and_id_witness :
    moteNew (.str ("div" ++ "#" ++ "panel")) =
      .ok { tag := "div", id := "panel", attrs := [], value := "", classes := [] } :=
  mote_idd_tag_and_id "div" "panel" (by rfl) (by rfl)

/-! ## Attributes and primitive JS values (claims C2, C3) -/

/-- A JS primitive value of the kinds `El.set` / `El.val` accept
(`string | number | boolean`; numbers embedded as `Int`). -/
inductive JSPrim where
  | s (v : String)
  | n (v : Int)
  | b (v : Bool)
  deriving Repr, DecidableEq

/-- JS truthiness of a primitive (`!value`-style tests in the source):
`""`, `0` and `false` are falsy. -/
def jsTruthy : JSPrim → Bool
  | .s v => v ≠ ""
  | .n v => v ≠ 0
  | .b v => v

/-- JS string coercion (`value.toString()`). -/
def jsToString : JSPrim → String
  | .s v => v
  | .n v => toString v
  | .b v => if v then "true" else "false"

/-- `Element.setAttribute`: replace the value in place if the attribute
exists, else append it. -/
def setAttr (l : List (String × String)) (k v : String) : List (String × String) :=
  if l.any (fun p => p.1 == k) then
    l.map (fun p => if p.1 == k then (k, v) else p)
  else
    l ++ [(k, v)]

/-- `Element.getAttribute`: the value of the first binding of `k`. -/
def getAttr (l : List (String × String)) (k : String) : Option String :=
  (l.find? (fun p => p.1 == k)).map Prod.snd

/-- `El.set` (El.ts): for each entry, **skip it entirely when the value is
falsy** (`if (!value) return;`), otherwise `setAttribute` its string
coercion. -/
def elSet (e : Elem) (setObj : List (String × JSPrim)) : Elem :=
  setObj.foldl (fun acc kv =>
    if jsTruthy kv.2 then { acc with attrs := setAttr acc.attrs kv.1 (jsToString kv.2) }
    else acc) e

/-- Reading attribute `k` of the element (`getAttribute`). -/
def getAttribute (e : Elem) (k : String) : Option String :=
  getAttr e.attrs k

/-- `El.data` (El.ts): read the `data-`-prefixed attribute. -/
def elData (e : Elem) (dataSuffix : String) : Option String :=
  getAttribute e ("data-" ++ dataSuffix)

theorem find?_map_replace {k v : String} {l : List (String × String)}
    (h : l.any (fun p => p.1 == k) = true) :
    (l.map (fun p => if p.1 == k then (k, v) else p)).find? (fun p => p.1 == k)
      = some (k, v) := by
  induction l with
  | nil => simp at h
  | cons p t ih =>
    simp only [List.any_cons, Bool.or_eq_true] at h
    by_cases hp : (p.1 == k) = true
    · simp [List.find?, hp]
    · have ht : t.any (fun p => p.1 == k) = true := by
        cases h with
        | inl h1 => exact absurd h1 hp
        | inr h2 => exact h2
      simp only [List.map_cons, if_neg hp]
      simp only [List.find?, Bool.not_eq_true] at hp ⊢
      rw [hp]
      exact ih ht

theorem find?_key_append {k v : String} {l : List (String × String)}
    (h : l.any (fun p => p.1 == k) = false) :
    (l ++ [(k, v)]).find? (fun p => p.1 == k) = some (k, v) := by
  induction l with
  | nil => simp [List.find?]
  | cons p t ih =>
    simp only [List.any_cons, Bool.or_eq_false_iff] at h
    simp only [List.cons_append, List.find?, h.1]
    exact ih h.2

/-- `setAttribute` / `getAttribute` round-trip. -/
theorem getAttr_setAttr (l : List (String × String)) (k v : String) :
    getAttr (setAttr l k v) k = some v := by
  unfold setAttr getAttr
  by_cases h : l.any (fun p => p.1 == k) = true
  · rw [if_pos h, find?_map_replace h]
    rfl
  · rw [Bool.not_eq_true] at h
    rw [if_neg (by rw [h]; exact Bool.false_ne_true), find?_key_append h]
    rfl

/-- A demo element used by concrete counterexamples and witnesses. -/
def demoDiv : Elem :=
  { tag := "div", id := "x", attrs := [], value := "", classes := [] }

/-- C2 counterexample: setting the attribute `data-flag` to the boolean
`false` and reading it back does **not** yield `"false"` — `El.set` skips
falsy values, so the attribute is never written. -/
theorem elSet_false_no_roundtrip :
    getAttribute (elSet demoDiv [("data-flag", .b false)]) "data-flag" = none ∧
    getAttribute (elSet demoDiv [("data-flag", .b false)]) "data-flag"
      ≠ some (jsToString (.b false)) := by
  constructor
  · rfl
  · decide

/-- C2 amended: for every **truthy** value `V` (non-empty string, non-zero
number, `true`), setting attribute `k` to `V` via `El.set` and reading `k`
back yields the string coercion of `V`; likewise through the `data`
read for `data-`-prefixed keys. -/
theorem elSet_truthy_roundtrip (e : Elem) (k : String) (v : JSPrim)
    (h : jsTruthy v = true) :
    getAttribute (elSet e [(k, v)]) k = some (jsToString v) ∧
    elData (elSet e [("data-" ++ k, v)]) k = some (jsToString v) := by
  constructor
  · unfold elSet getAttribute
    simp only [List.foldl_cons, List.foldl_nil, if_pos h]
    exact getAttr_setAttr e.attrs k (jsToString v)
  · unfold elSet elData getAttribute
    simp only [List.foldl_cons, List.foldl_nil, if_pos h]
    exact getAttr_setAttr e.attrs ("data-" ++ k) (jsToString v)

/-- C2 witness: the round-trip at a concrete truthy value. -/
theorem elSet_truthy_roundtrip_witness :
    getAttribute (elSet demoDiv [("data-user-id", .s "123")]) "data-user-id"
        = some (jsToString (.s "123")) ∧
    elData (elSet demoDiv [("data-" ++ "data-user-id", .s "123")]) "data-user-id"
        = some (jsToString (.s "123")) :=
  elSet_truthy_roundtrip demoDiv "data-user-id" (.s "123") (by rfl)

/-- C3 counterexample: on an element with id `x`, calling `id('')` does
**not** set the identifier to the empty string and return the wrapper — the
empty string is falsy, so the call takes the get form and returns `"x"`. -/
theorem elId_empty_string_is_get :
    elId demoDiv (some "") = .value "x" ∧
    elId demoDiv (some "") ≠ .wrapper { demoDiv with id := "" } := by
  constructor
  · rfl
  · decide

/-- C3 amended: `El.id` distinguishes get from set by the **truthiness** of
the argument, not by arity: with no argument or with the empty string it
returns the current identifier; with a non-empty string it assigns the
identifier and returns the wrapper. -/
theorem elId_truthiness_dispatch (e : Elem) (s : String) (h : s ≠ "") :
    elId e none = .value e.id ∧
    elId e (some "") = .value e.id ∧
    elId e (some s) = .wrapper { e with id := s } := by
  refine ⟨rfl, rfl, ?_⟩
  unfold elId
  show (if s = "" then IdResult.value e.id else .wrapper { e with id := s })
    = .wrapper { e with id := s }
  rw [if_neg h]

/-- C3 witness: the dispatch at concrete inputs. -/
theorem elId_truthiness_dispatch_witness :
    elId demoDiv none = .value demoDiv.id ∧
    elId demoDiv (some "") = .value demoDiv.id ∧
    elId demoDiv (some "y") = .wrapper { demoDiv with id := "y" } :=
  elId_truthiness_dispatch demoDiv "y" (by decide)

/-! ## The `El` (SingleWrapper) constructor (claims C4, C6) -/

/-- What a factory function passed to the `El` constructor returns when
invoked: an element, a string, a falsy value, or some other truthy value
(in which case control falls out of the source's `typeof === 'function'`
block). -/
inductive FuncRet where
  | elemRef (e : Elem)
  | str (s : String)
  | falsy
  | otherTruthy
  deriving Repr, DecidableEq

/-- A JS value reaching the `El` constructor: the three supported shapes
(element reference, factory function, selector string) or any other value
such as a number. A function input carries its source text, because a
fall-through hands the function object itself to `querySelector`, which
coerces it to that text. -/
inductive ElInput where
  | elemRef (e : Elem)
  | func (srcText : String) (r : FuncRet)
  | str (s : String)
  | num (n : Int)
  deriving Repr, DecidableEq

/-- Resolve a selector string the way the `El` constructor does: one
`querySelector` lookup, adopting the first match, else
`ElementNotFoundError` carrying the selector text (the platform's
`SyntaxError` propagates when the selector is invalid). -/
def elLookup (s : String) (doc : List Elem) : Except MoteErr Elem :=
  match querySelectorDyn s doc with
  | .error err => .error err
  | .ok none => .error (.elementNotFound s)
  | .ok (some e) => .ok e

/-- The `El` constructor (El.ts). An element is adopted verbatim; a factory
function is invoked once (falsy result → `InvalidReturnValueError`; element
result → adopt; string result → lookup; any other truthy result falls
through to `document.querySelector(selector)` with the function itself,
coerced to its source text). A string is looked up. **Any other value (e.g.
a number) also reaches `document.querySelector`, which coerces it to a
string** — there is no `InvalidSelectorError` path in this constructor. -/
def elNew (doc : List Elem) (input : ElInput) : Except MoteErr Elem :=
  match input with
  | .elemRef e => .ok e
  | .func srcText r =>
    match r with
    | .falsy => .error (.invalidReturnValue "an element or selector string")
    | .elemRef e => .ok e
    | .str t => elLookup t doc
    | .otherTruthy => elLookup srcText doc
  | .str s => elLookup s doc
  | .num n => elLookup (toString n) doc

/-- C4, code divergence: constructing an `El` with the number `123` does not
fail with `InvalidSelectorError` — the value reaches `querySelector`, whose
coercion `"123"` is an invalid selector, so the platform's `SyntaxError` is
what surfaces. -/
theorem elNew_number_platform_error :
    elNew [demoDiv] (.num 123) = .error (.platformSyntaxError "123") ∧
    elNew [demoDiv] (.num 123) ≠ .error (.invalidSelector "123") := by
  constructor
  · rfl
  · intro h
    exact MoteErr.noConfusion (Except.error.inj h)

/-- C6: for every valid selector `S` matching no element of the document,
the `El` constructor fails with `ElementNotFound` carrying `S`. -/
theorem elNew_unmatched_not_found (doc : List Elem) (S : String)
    (hvalid : validSelector S = true)
    (hnone : doc.find? (matchesSel S) = none) :
    elNew doc (.str S) = .error (.elementNotFound S) := by
  have hstep : elNew doc (.str S) = elLookup S doc := rfl
  rw [hstep]
  unfold elLookup querySelectorDyn
  rw [if_pos hvalid, hnone]

/-- C6 witness: looking up `#nope` in a document holding only `demoDiv`. -/
theorem elNew_unmatched_not_found_witness :
    elNew [demoDiv] (.str "#nope") = .error (.elementNotFound "#nope") :=
  elNew_unmatched_not_found [demoDiv] "#nope" (by rfl) (by rfl)

/-! ## The `All` (MultiWrapper) collection (claims C7, C8) -/

/-- An `All` wrapper: the snapshot of the nodes matching the constructor's
selector, in document order. -/
structure AllW where
  elements : List Elem
  deriving Repr, DecidableEq

/-- The `All` constructor (All.ts): one `querySelectorAll`, no emptiness
check — an empty match yields a wrapper over an empty collection. -/
def allNew (tempSelector : String) (doc : List Elem) : Except MoteErr AllW :=
  (querySelectorAllDyn tempSelector doc).map (fun es => AllW.mk es)

/-- `All.each` (All.ts): invoke the callback once per node with the node and
its zero-based index, in collection order. The callback's side effects are
threaded as a state `σ`; the method itself returns the wrapper unchanged
(`return this`). -/
def allEach {σ : Type} (a : AllW) (callback : σ → Elem → Nat → σ) (init : σ) : σ :=
  (a.elements.foldl (fun p e => (callback p.1 e p.2, p.2 + 1)) (init, 0)).1

/-- The number of times `each` invokes its callback (the counting state). -/
def allEachCount (a : AllW) : Nat :=
  allEach a (fun n _ _ => n + 1) 0

/-- `classList.add` for a single class name: append it unless present. -/
def classListAdd (e : Elem) (className : String) : Elem :=
  if e.classes.contains className then e else { e with classes := e.classes ++ [className] }

/-- `All.addClass` (All.ts) for a single non-array class name: add the class
on every node of the collection. -/
def allAddClass (a : AllW) (className : String) : AllW :=
  AllW.mk (a.elements.map (fun e => classListAdd e className))

/-- The `instanceof` chain of `All.val` (All.ts): `HTMLInputElement`,
`HTMLSelectElement`, `HTMLTextAreaElement`, `HTMLOptionElement` — and no
`HTMLProgressElement`. -/
def isAllValTarget (e : Elem) : Bool :=
  e.tag == "input" || e.tag == "select" || e.tag == "textarea" || e.tag == "option"

/-- The `instanceof` chain of `El.val` (El.ts): the same four kinds **plus**
`HTMLProgressElement`. -/
def isElValTarget (e : Elem) : Bool :=
  e.tag == "input" || e.tag == "select" || e.tag == "textarea"
    || e.tag == "option" || e.tag == "progress"

/-- `All.val` (All.ts): for each node of the collection, assign the string
coercion of the new value when the node passes the `instanceof` chain;
silently skip every other node; never throw. -/
def allVal (a : AllW) (newVal : Option JSPrim) : AllW :=
  AllW.mk (a.elements.map (fun e =>
    if isAllValTarget e then
      match newVal with
      | some v => { e with value := jsToString v }
      | none => e
    else e))

/-- `El.val` (El.ts): get or set the value on an input-like node, else throw
`InvalidElementTypeError` (the source's `Date` branch is unreachable for the
`string | number | boolean` primitives modelled here). -/
def elVal (e : Elem) (newVal : Option JSPrim) : Except MoteErr (Elem ⊕ String) :=
  if isElValTarget e then
    match newVal with
    | none => .ok (.inr e.value)
    | some v => .ok (.inl { e with value := jsToString v })
  else
    .error (.invalidElementType "val" "input, select, textarea, or progress" e.tag e.id)

/-- C7: for every valid selector `S`, the `All` constructor succeeds and the
collection size equals the number of matching nodes; on an empty match,
batch class-add returns (without error) a wrapper whose collection is still
empty, and a subsequent `each` invokes its callback zero times. -/
theorem allNew_total_and_size (S : String) (doc : List Elem) (c : String)
    (hvalid : validSelector S = true) :
    allNew S doc = .ok (AllW.mk (doc.filter (matchesSel S))) ∧
    (AllW.mk (doc.filter (matchesSel S))).elements.length = doc.countP (matchesSel S) ∧
    (doc.countP (matchesSel S) = 0 →
      allAddClass (AllW.mk (doc.filter (matchesSel S))) c = AllW.mk [] ∧
      allEachCount (allAddClass (AllW.mk (doc.filter (matchesSel S))) c) = 0) := by
  refine ⟨?_, ?_, ?_⟩
  · unfold allNew querySelectorAllDyn
    rw [if_pos hvalid]
    rfl
  · show (doc.filter (matchesSel S)).length = doc.countP (matchesSel S)
    rw [List.countP_eq_length_filter]
  · intro h0
    have hfil : doc.filter (matchesSel S) = [] := by
      rw [List.countP_eq_length_filter] at h0
      exact List.length_eq_zero.mp h0
    rw [hfil]
    exact ⟨rfl, rfl⟩

/-- C7 witness: an empty match over a one-element document. -/
theorem allNew_total_and_size_witness :
    allNew "#nope" [demoDiv] = .ok (AllW.mk ([demoDiv].filter (matchesSel "#nope"))) ∧
    (AllW.mk ([demoDiv].filter (matchesSel "#nope"))).elements.length
        = [demoDiv].countP (matchesSel "#nope") ∧
    ([demoDiv].countP (matchesSel "#nope") = 0 →
      allAddClass (AllW.mk ([demoDiv].filter (matchesSel "#nope"))) "hl" = AllW.mk [] ∧
      allEachCount (allAddClass (AllW.mk ([demoDiv].filter (matchesSel "#nope"))) "hl") = 0) :=
  allNew_total_and_size "#nope" [demoDiv] "hl" (by rfl)

/-- A demo progress node with value `"0"`. -/
def demoProgress : Elem :=
  { tag := "progress", id := "p1", attrs := [], value := "0", classes := [] }

/-- C8 counterexample: a collection holding one progress node. The batch
value-set leaves its value `"0"` — `All.val` skips progress nodes, although
the claim's input-like set (and `El.val`) includes `progress`. -/
theorem allVal_skips_progress :
    (allVal (AllW.mk [demoProgress]) (some (.s "5"))).elements = [demoProgress] ∧
    demoProgress.value = "0" ∧
    isElValTarget demoProgress = true := by
  refine ⟨rfl, rfl, rfl⟩

/-- C8 amended: the batch value-set never fails and changes the value exactly
on the nodes whose kind is in {input, select, textarea, option} — progress
nodes are skipped by the batch operation (although the single-node operation
accepts them) — leaving every other node unchanged; the single-node `val` on
a non-input-like node fails with `InvalidElementType`. -/
theorem allVal_elVal_asymmetry (es : List Elem) (v : JSPrim) (i : Nat)
    (hi : i < es.length) (e : Elem) (hnot : isElValTarget e = false) :
    (allVal (AllW.mk es) (some v)).elements[i]? =
      some (if isAllValTarget es[i] then { es[i] with value := jsToString v } else es[i]) ∧
    elVal e (some v)
      = .error (.invalidElementType "val" "input, select, textarea, or progress" e.tag e.id) := by
  constructor
  · unfold allVal
    simp only [List.getElem?_map]
    rw [List.getElem?_eq_getElem hi]
    simp only [Option.map_some']
  · unfold elVal
    rw [if_neg (by rw [hnot]; exact Bool.false_ne_true)]

/-- C8 witness: a mixed collection (a div and an input) at index 1, and the
single-node failure on the div. -/
theorem allVal_elVal_asymmetry_witness :
    (allVal (AllW.mk [demoDiv, { tag := "input", id := "i1", attrs := [], value := "", classes := [] }]) (some (.s "5"))).elements[1]? =
      some (if isAllValTarget ([demoDiv, { tag := "input", id := "i1", attrs := [], value := "", classes := [] }] : List Elem)[1] then
        { ([demoDiv, { tag := "input", id := "i1", attrs := [], value := "", classes := [] }] : List Elem)[1] with value := jsToString (.s "5") }
      else ([demoDiv, { tag := "input", id := "i1", attrs := [], value := "", classes := [] }] : List Elem)[1]) ∧
    elVal demoDiv (some (.s "5"))
      = .error (.invalidElementType "val" "input, select, textarea, or progress" demoDiv.tag demoDiv.id) :=
  allVal_elVal_asymmetry [demoDiv, { tag := "input", id := "i1", attrs := [], value := "", classes := [] }]
    (.s "5") 1 (by decide) demoDiv (by rfl)

/-! ## `Mote.appendWithin` (claim C5)

The source is
`Promise.resolve(cb('#' + this.element.id)).then(...).catch(...)`:
the callback itself is invoked **during the synchronous phase** of the call
(its invocation is the argument of `Promise.resolve`); only the `.then` /
`.catch` continuations run later as microtasks. The embedding therefore
splits an invocation's observable behaviour into the synchronous phase
(calls performed inline, exceptions reaching the caller) and the deferred
continuations (console diagnostics emitted from microtasks). -/

/-- The possible behaviours of a JS callback handed to `appendWithin`, as
observed at its single invocation: return `undefined`, return a plain value,
throw synchronously, or return a promise that resolves (to `undefined` or a
value) or rejects. -/
inductive CbBehavior where
  | retUndefined
  | retValue (v : String)
  | syncThrow (err : String)
  | promiseResolveUndefined
  | promiseResolveValue (v : String)
  | promiseReject (err : String)
  deriving Repr, DecidableEq

/-- The observable outcome of one `appendWithin` call: the arguments the
callback was invoked with during the synchronous phase (in order), the
exception escaping to the caller (if any), and the console diagnostics
emitted later from the deferred `.then`/`.catch` continuations. -/
structure WithinRun where
  syncCalls : List String
  syncException : Option String
  deferredLogs : List String
  deriving Repr, DecidableEq

/-- `Mote.appendWithin` (Mote.ts). The callback is invoked once, inline,
with `'#' + this.element.id`. A synchronous throw happens before
`Promise.resolve` is even applied, so it escapes to the caller. A returned
non-`undefined` value triggers the `console.debug` warning from `.then`; a
rejected promise is caught by `.catch` and reported via `console.error`. -/
def appendWithin (e : Elem) (cb : String → CbBehavior) : WithinRun :=
  let arg := "#" ++ e.id
  match cb arg with
  | .syncThrow err =>
    { syncCalls := [arg], syncException := some err, deferredLogs := [] }
  | .retUndefined =>
    { syncCalls := [arg], syncException := none, deferredLogs := [] }
  | .retValue v =>
    { syncCalls := [arg], syncException := none,
      deferredLogs :=
        ["[Mote:within] -> Nest detected a async cb that returned a value to it! This can't be right! " ++ v] }
  | .promiseResolveUndefined =>
    { syncCalls := [arg], syncException := none, deferredLogs := [] }
  | .promiseResolveValue v =>
    { syncCalls := [arg], syncException := none,
      deferredLogs :=
        ["[Mote:within] -> Nest detected a async cb that returned a value to it! This can't be right! " ++ v] }
  | .promiseReject err =>
    { syncCalls := [arg], syncException := none,
      deferredLogs := ["[Mote:within] -> Error in async cb " ++ err] }

/-- C5 counterexample: on an element with id `x` and a callback that throws
synchronously, the callback runs during the synchronous phase (so it is
**not** scheduled as a microtask) and its failure **escapes to the caller**
instead of being swallowed into the diagnostic channel. -/
theorem appendWithin_inline_and_sync_throw_escapes :
    (appendWithin demoDiv (fun _ => .syncThrow "boom")).syncCalls = ["#x"] ∧
    (appendWithin demoDiv (fun _ => .syncThrow "boom")).syncException = some "boom" ∧
    (appendWithin demoDiv (fun _ => .syncThrow "boom")).deferredLogs = [] := by
  refine ⟨rfl, rfl, rfl⟩

/-- C5 amended: the callback is invoked exactly once, **synchronously
inline** (during the call's own synchronous phase, not as a microtask), with
the selector form `#identifier`; a rejection of a promise it returns is
caught internally and reported to the console diagnostic channel, not
propagated — while a synchronous throw does propagate to the caller. -/
theorem appendWithin_once_inline_catches_rejection (e : Elem)
    (cb : String → CbBehavior) (err : String)
    (hrej : cb ("#" ++ e.id) = .promiseReject err) :
    (appendWithin e cb).syncCalls = ["#" ++ e.id] ∧
    (appendWithin e cb).syncException = none ∧
    (appendWithin e cb).deferredLogs = ["[Mote:within] -> Error in async cb " ++ err] := by
  simp only [appendWithin]
  rw [hrej]
  exact ⟨rfl, rfl, rfl⟩

/-- C5 witness: a rejecting callback on the demo element. -/
theorem appendWithin_once_inline_catches_rejection_witness :
    (appendWithin demoDiv (fun _ => .promiseReject "nope")).syncCalls = ["#" ++ demoDiv.id] ∧
    (appendWithin demoDiv (fun _ => .promiseReject "nope")).syncException = none ∧
    (appendWithin demoDiv (fun _ => .promiseReject "nope")).deferredLogs
      = ["[Mote:within] -> Error in async cb " ++ "nope"] :=
  appendWithin_once_inline_catches_rejection demoDiv (fun _ => .promiseReject "nope") "nope" rfl

/-! ## Parent navigation over the live tree (claim C10) -/

/-- The live document as a store: nodes in document order, each node paired
with the index of its parent (`none` for a root). A `SingleWrapper` over
this store is an index into `nodes`. -/
structure TreeDoc where
  nodes : List (Elem × Option Nat)
  deriving Repr, DecidableEq

/-- `El.parent` (El.ts): read `parentElement`; throw `NoParentNodeError` when
there is none; if the parent has no id, assign it `'parent-' + this.element.id`;
then build a fresh wrapper via `new El('#' + parentElement.id)`, i.e. one
`querySelector` over the (possibly mutated) document. Returns the mutated
document together with the constructor's outcome. -/
def elParent (d : TreeDoc) (i : Nat) : TreeDoc × Except MoteErr Elem :=
  match d.nodes[i]? with
  | none => (d, .error (.plainError "stale wrapper"))
  | some (e, pIdx) =>
    match pIdx with
    | none => (d, .error (.noParentNode "get parent element" e.id))
    | some j =>
      match d.nodes[j]? with
      | none => (d, .error (.plainError "stale parent"))
      | some (p, pp) =>
        let newId := if p.id = "" then "parent-" ++ e.id else p.id
        let d2 : TreeDoc := TreeDoc.mk (d.nodes.set j ({ p with id := newId }, pp))
        match querySelectorDyn ("#" ++ newId) (d2.nodes.map Prod.fst) with
        | .error err => (d2, .error err)
        | .ok none => (d2, .error (.elementNotFound ("#" ++ newId)))
        | .ok (some q) => (d2, .ok q)

/-- The parent element as it stands after a `parent()` call: unchanged when
it already had an identifier, otherwise carrying `parent-` concatenated with
the child's identifier. -/
def parentUpdatedElem (child parent : Elem) : Elem :=
  if parent.id = "" then { parent with id := "parent-" ++ child.id } else parent

/-- C10: when the wrapped element at `i` has the parent at `j`, the
parent-navigation operation mutates the document — a parent without an
identifier is assigned `parent-` ++ child id, a parent with one is left
unchanged (the whole document unchanged) — and, provided the (new) parent id
resolves to the parent node itself (as in any document with unique ids), the
operation returns a new wrapper over the parent. -/
theorem elParent_mutation_and_wrapper (d : TreeDoc) (i j : Nat) (e p : Elem)
    (pp : Option Nat)
    (hi : d.nodes[i]? = some (e, some j))
    (hj : d.nodes[j]? = some (p, pp))
    (hvalid : validSelector ("#" ++ (parentUpdatedElem e p).id) = true)
    (hfind : ((d.nodes.set j (parentUpdatedElem e p, pp)).map Prod.fst).find?
        (matchesSel ("#" ++ (parentUpdatedElem e p).id)) = some (parentUpdatedElem e p)) :
    (elParent d i).1.nodes = d.nodes.set j (parentUpdatedElem e p, pp) ∧
    (elParent d i).2 = .ok (parentUpdatedElem e p) ∧
    (p.id ≠ "" → (elParent d i).1.nodes = d.nodes) := by
  have hupd : ({ p with id := if p.id = "" then "parent-" ++ e.id else p.id } : Elem)
      = parentUpdatedElem e p := by
    unfold parentUpdatedElem
    by_cases h0 : p.id = ""
    · rw [if_pos h0, if_pos h0]
    · rw [if_neg h0, if_neg h0]
  have hid : (if p.id = "" then "parent-" ++ e.id else p.id) = (parentUpdatedElem e p).id := by
    unfold parentUpdatedElem
    by_cases h0 : p.id = ""
    · rw [if_pos h0, if_pos h0]
    · rw [if_neg h0, if_neg h0]
  have hupd2 : ({ p with id := (parentUpdatedElem e p).id } : Elem) = parentUpdatedElem e p := by
    unfold parentUpdatedElem
    by_cases h0 : p.id = ""
    · rw [if_pos h0]
    · rw [if_neg h0]
  have hrun : elParent d i
      = (TreeDoc.mk (d.nodes.set j (parentUpdatedElem e p, pp)), .ok (parentUpdatedElem e p)) := by
    simp only [elParent, hi, hj, hid, hupd2]
    unfold querySelectorDyn
    rw [if_pos hvalid, hfind]
  refine ⟨by rw [hrun], by rw [hrun], ?_⟩
  intro hne
  rw [hrun]
  show (d.nodes.set j (parentUpdatedElem e p, pp)) = d.nodes
  have hpe : parentUpdatedElem e p = p := by
    unfold parentUpdatedElem
    rw [if_neg hne]
  rw [hpe]
  apply List.ext_getElem?
  intro n
  rw [List.getElem?_set]
  by_cases hn : j = n
  · subst hn
    rw [if_pos rfl]
    rw [hj]
    have : j < d.nodes.length := by
      by_contra hlen
      rw [List.getElem?_eq_none (Nat.le_of_not_lt hlen)] at hj
      exact Option.noConfusion hj
    rw [if_pos this]
  · rw [if_neg hn]

/-- C10 witness: a two-node document — child `c` at index 0 whose parent at
index 1 has no identifier. -/
theorem elParent_mutation_and_wrapper_witness :
    (elParent (TreeDoc.mk [({ tag := "span", id := "c", attrs := [], value := "", classes := [] }, some 1), ({ tag := "div", id := "", attrs := [], value := "", classes := [] }, none)]) 0).1.nodes
      = ([({ tag := "span", id := "c", attrs := [], value := "", classes := [] }, some 1), ({ tag := "div", id := "", attrs := [], value := "", classes := [] }, none)] : List (Elem × Option Nat)).set 1
          (parentUpdatedElem { tag := "span", id := "c", attrs := [], value := "", classes := [] } { tag := "div", id := "", attrs := [], value := "", classes := [] }, none) ∧
    (elParent (TreeDoc.mk [({ tag := "span", id := "c", attrs := [], value := "", classes := [] }, some 1), ({ tag := "div", id := "", attrs := [], value := "", classes := [] }, none)]) 0).2
      = .ok (parentUpdatedElem { tag := "span", id := "c", attrs := [], value := "", classes := [] } { tag := "div", id := "", attrs := [], value := "", classes := [] }) ∧
    (({ tag := "div", id := "", attrs := [], value := "", classes := [] } : Elem).id ≠ "" →
      (elParent (TreeDoc.mk [({ tag := "span", id := "c", attrs := [], value := "", classes := [] }, some 1), ({ tag := "div", id := "", attrs := [], value := "", classes := [] }, none)]) 0).1.nodes
        = [({ tag := "span", id := "c", attrs := [], value := "", classes := [] }, some 1), ({ tag := "div", id := "", attrs := [], value := "", classes := [] }, none)]) :=
  elParent_mutation_and_wrapper
    (TreeDoc.mk [({ tag := "span", id := "c", attrs := [], value := "", classes := [] }, some 1), ({ tag := "div", id := "", attrs := [], value := "", classes := [] }, none)])
    0 1
    { tag := "span", id := "c", attrs := [], value := "", classes := [] }
    { tag := "div", id := "", attrs := [], value := "", classes := [] }
    none (by rfl) (by rfl) (by rfl) (by rfl)
